import Mathlib

/-!
Shallow embedding of the Encore booking single-page component
(`HomeClient` in `src/unnamed/part_000`, mounted from `src/unnamed/part_001`).

The component keeps local state: three filter criteria (genre, location,
budget ceiling), an event-type string, the selected artist id, the chosen
availability slot, the booking form fields, and an optional status message.
A derived list `filteredArtists` is recomputed from the criteria, and a
reconciliation effect re-validates the selection after every recomputation.
Machine numbers (`artist.rate`, `budget`) only ever flow through `Math.max`,
`Math.min` and `<=`, so they are embedded as `Int` (every modelled rate is a
finite number, making the source's `Number.isFinite` guard identically true).
-/

structure Showcase where
  venue : String
  city : String
  date : String
deriving DecidableEq, Repr

structure Artist where
  id : String
  name : String
  genres : List String
  location : String
  rate : Int
  rating : Int
  description : String
  coverImage : String
  availability : List String
  showcases : List Showcase
deriving DecidableEq, Repr

structure BookingFormState where
  plannerName : String
  plannerEmail : String
  eventDetails : String
deriving DecidableEq, Repr

/-- The local state held by the `HomeClient` component. `successMessage`
is `Option String` mirroring the source's `string | null`. -/
structure HomeState where
  genreFilter : String
  locationFilter : String
  budget : Int
  eventType : String
  selectedArtistId : String
  selectedAvailability : String
  formState : BookingFormState
  successMessage : Option String
deriving DecidableEq, Repr

/-- The static `eventTypes` array; only its first element reaches state. -/
def eventTypes : List String :=
  ["Corporate Gala", "Private Celebration", "Wedding", "Brand Activation",
   "Festival Stage", "Hospitality Lounge"]

/-- `initialArtists.reduce((m, a) => Math.max(m, a.rate), initialArtists[0]?.rate ?? 0)`. -/
def maxRate (initialArtists : List Artist) : Int :=
  initialArtists.foldl (fun currentMax artist => max currentMax artist.rate)
    ((initialArtists.head?.map Artist.rate).getD 0)

/-- `initialArtists.reduce((m, a) => Math.min(m, a.rate), initialArtists[0]?.rate ?? 0)`. -/
def minRate (initialArtists : List Artist) : Int :=
  initialArtists.foldl (fun currentMin artist => min currentMin artist.rate)
    ((initialArtists.head?.map Artist.rate).getD 0)

/-- `Number.isFinite(minRate) ? minRate : 0`; an `Int` is always finite. -/
def resolvedMinRate (initialArtists : List Artist) : Int :=
  minRate initialArtists

/-- `Math.max(resolvedMinRate, maxRate)`. -/
def resolvedMaxRate (initialArtists : List Artist) : Int :=
  max (resolvedMinRate initialArtists) (maxRate initialArtists)

/-- The component state right after the `useState` initialisers run:
filters at "All", budget at `resolvedMaxRate`, event type at
`eventTypes[0]`, selection at `initialArtists[0]?.id ?? ""`, no slot,
empty form, no message. -/
def initState (initialArtists : List Artist) : HomeState :=
  { genreFilter := "All"
    locationFilter := "All"
    budget := resolvedMaxRate initialArtists
    eventType := "Corporate Gala"
    selectedArtistId := (initialArtists.head?.map Artist.id).getD ""
    selectedAvailability := ""
    formState := { plannerName := "", plannerEmail := "", eventDetails := "" }
    successMessage := none }

/-- The filter predicate applied to each artist: genre is "All" or occurs in
the artist's genres, location is "All" or equals the artist's location, and
the rate does not exceed the budget. -/
def artistMatches (genreFilter locationFilter : String) (budget : Int)
    (artist : Artist) : Bool :=
  let matchesGenre :=
    genreFilter == "All" || artist.genres.any (fun genre => genre == genreFilter)
  let matchesLocation := locationFilter == "All" || artist.location == locationFilter
  let matchesBudget := artist.rate ≤ budget
  matchesGenre && matchesLocation && matchesBudget

/-- The derived `filteredArtists` memo. -/
def filteredArtists (initialArtists : List Artist) (s : HomeState) : List Artist :=
  initialArtists.filter
    (artistMatches s.genreFilter s.locationFilter s.budget)

/-- The selection-reconciliation `useEffect`: on an empty filtered list clear
the selected id and the slot; if the selected id is no longer visible, select
the first filtered artist and clear the slot; otherwise change nothing. -/
def reconcile (initialArtists : List Artist) (s : HomeState) : HomeState :=
  match filteredArtists initialArtists s with
  | [] => { s with selectedArtistId := "", selectedAvailability := "" }
  | first :: rest =>
    if (first :: rest).any (fun artist => artist.id == s.selectedArtistId) then s
    else { s with selectedArtistId := first.id, selectedAvailability := "" }

/-- The derived `selectedArtist` memo: the filtered artist carrying the
selected id, if any. -/
def selectedArtist (initialArtists : List Artist) (s : HomeState) : Option Artist :=
  (filteredArtists initialArtists s).find?
    (fun artist => artist.id == s.selectedArtistId)

/-- `handleBookClick`: select the artist, clear the slot and the message
(the scroll-into-view is presentation only). -/
def handleBookClick (artistId : String) (s : HomeState) : HomeState :=
  { s with selectedArtistId := artistId, selectedAvailability := ""
           successMessage := none }

/-- `handleAvailabilityClick`: toggle the slot — clicking the currently
chosen slot clears it, otherwise the clicked slot becomes chosen. -/
def handleAvailabilityClick (slot : String) (s : HomeState) : HomeState :=
  { s with selectedAvailability :=
      if s.selectedAvailability = slot then "" else slot }

/-- The keys of `BookingFormState`, for `handleFormChange`. -/
inductive FormField
  | plannerName
  | plannerEmail
  | eventDetails
deriving DecidableEq, Repr

/-- `handleFormChange`: overwrite one form field, keep the rest. -/
def handleFormChange (field : FormField) (value : String) (s : HomeState) :
    HomeState :=
  { s with formState :=
      match field with
      | .plannerName => { s.formState with plannerName := value }
      | .plannerEmail => { s.formState with plannerEmail := value }
      | .eventDetails => { s.formState with eventDetails := value } }

/-- The inline message shown when no artist or no slot is chosen. -/
def selectPromptMessage : String :=
  "Select an artist and availability to confirm a request."

/-- The inline message shown when the planner name or email is blank. -/
def contactPromptMessage : String :=
  "Please include your name and email so we can follow up."

/-- The confirmation message built on a successful submission. -/
def confirmationMessage (artistName slot : String) : String :=
  "Booking inquiry sent for " ++ artistName ++ " on " ++ slot ++
    ". Expect a response within 24 hours."

/-- `handleSubmit`: guard on `!selectedArtist || !selectedAvailability`, then
on blank planner name or email; on success set the confirmation message,
reset the form fields and clear the slot. -/
def handleSubmit (initialArtists : List Artist) (s : HomeState) : HomeState :=
  match selectedArtist initialArtists s with
  | none => { s with successMessage := some selectPromptMessage }
  | some artist =>
    if s.selectedAvailability = "" then
      { s with successMessage := some selectPromptMessage }
    else if s.formState.plannerName = "" ∨ s.formState.plannerEmail = "" then
      { s with successMessage := some contactPromptMessage }
    else
      { s with
          successMessage :=
            some (confirmationMessage artist.name s.selectedAvailability)
          formState := { plannerName := "", plannerEmail := "", eventDetails := "" }
          selectedAvailability := "" }

/-- The `onClick` of an availability-slot button on an artist card
(lines 354–357 of the source): `handleBookClick(artist.id)` followed by
`handleAvailabilityClick(slot)`; the functional updater of the second call
observes the cleared slot left by the first. -/
def cardSlotClick (artistId slot : String) (s : HomeState) : HomeState :=
  handleAvailabilityClick slot (handleBookClick artistId s)

/-- User interaction events of the component. -/
inductive Event
  | setGenre (genre : String)
  | setLocation (location : String)
  | setBudget (value : Int)
  | setEventType (value : String)
  | bookClick (artistId : String)
  | availabilityClick (slot : String)
  | cardSlotClick (artistId : String) (slot : String)
  | formChange (field : FormField) (value : String)
  | submit
deriving DecidableEq, Repr

/-- The state update performed by each event handler, before the
reconciliation effect reacts. -/
def applyEvent (initialArtists : List Artist) (ev : Event) (s : HomeState) :
    HomeState :=
  match ev with
  | .setGenre genre => { s with genreFilter := genre }
  | .setLocation location => { s with locationFilter := location }
  | .setBudget value => { s with budget := value }
  | .setEventType value => { s with eventType := value }
  | .bookClick artistId => handleBookClick artistId s
  | .availabilityClick slot => handleAvailabilityClick slot s
  | .cardSlotClick artistId slot => cardSlotClick artistId slot s
  | .formChange field value => handleFormChange field value s
  | .submit => handleSubmit initialArtists s

/-- One user event followed by the reconciliation effect. -/
def step (initialArtists : List Artist) (s : HomeState) (ev : Event) :
    HomeState :=
  reconcile initialArtists (applyEvent initialArtists ev s)

/-- The state after mounting (initial state plus the first effect run) and
processing a sequence of user events, each followed by reconciliation. -/
def run (initialArtists : List Artist) (events : List Event) : HomeState :=
  events.foldl (step initialArtists)
    (reconcile initialArtists (initState initialArtists))

/-- Selection consistency: a non-empty selected artist id refers to an
artist present in the current filtered list. -/
def selectionConsistent (initialArtists : List Artist) (s : HomeState) : Prop :=
  s.selectedArtistId ≠ "" →
    ∃ artist ∈ filteredArtists initialArtists s,
      artist.id = s.selectedArtistId

/-! ### Sample data used by witnesses and counterexamples -/

/-- A sample artist record, standing in for one row of the static roster. -/
def artistNova : Artist :=
  { id := "nova"
    name := "Nova Quartet"
    genres := ["Jazz", "Soul"]
    location := "Lisbon"
    rate := 4800
    rating := 5
    description := "A late-night jazz ensemble."
    coverImage := "/covers/nova.jpg"
    availability := ["June 14", "July 2"]
    showcases := [{ venue := "Blue Hall", city := "Lisbon", date := "May 30" }] }

/-- A second sample artist with a different genre, location and rate. -/
def artistVolt : Artist :=
  { id := "volt"
    name := "Volt Ensemble"
    genres := ["Electronic"]
    location := "Berlin"
    rate := 6200
    rating := 4
    description := "High-energy electronic trio."
    coverImage := "/covers/volt.jpg"
    availability := ["June 21"]
    showcases := [] }

/-- The mounted state for the sample roster with a slot chosen and the
contact fields filled in, but blank event details. -/
def readySubmitState : HomeState :=
  { initState [artistNova, artistVolt] with
      selectedAvailability := "June 14"
      formState :=
        { plannerName := "Jordan", plannerEmail := "jordan@events.example"
          eventDetails := "" } }

/-- The mounted state for the sample roster with the slot "June 14" already
chosen. -/
def slotChosenState : HomeState :=
  { initState [artistNova, artistVolt] with selectedAvailability := "June 14" }

/-! ### Helper lemmas -/

/-- The Bool-level filter predicate, as a Prop. -/
theorem artistMatches_iff (genreFilter locationFilter : String) (budget : Int)
    (artist : Artist) :
    artistMatches genreFilter locationFilter budget artist = true ↔
      (genreFilter = "All" ∨ genreFilter ∈ artist.genres) ∧
      (locationFilter = "All" ∨ artist.location = locationFilter) ∧
      artist.rate ≤ budget := by
  simp only [artistMatches, Bool.and_eq_true, Bool.or_eq_true, beq_iff_eq,
    List.any_eq_true, decide_eq_true_eq, and_assoc]
  constructor
  · rintro ⟨hg, hl, hb⟩
    refine ⟨?_, hl, hb⟩
    rcases hg with hg | ⟨genre, hmem, rfl⟩
    · exact Or.inl hg
    · exact Or.inr hmem
  · rintro ⟨hg, hl, hb⟩
    refine ⟨?_, hl, hb⟩
    rcases hg with hg | hmem
    · exact Or.inl hg
    · exact Or.inr ⟨genreFilter, hmem, rfl⟩

/-- Membership in the filtered list, in Prop form. -/
theorem mem_filteredArtists (initialArtists : List Artist) (s : HomeState)
    (artist : Artist) :
    artist ∈ filteredArtists initialArtists s ↔
      artist ∈ initialArtists ∧
      (s.genreFilter = "All" ∨ s.genreFilter ∈ artist.genres) ∧
      (s.locationFilter = "All" ∨ artist.location = s.locationFilter) ∧
      artist.rate ≤ s.budget := by
  rw [filteredArtists, List.mem_filter, artistMatches_iff]

/-- Reconciliation on an empty filtered list clears the selection. -/
theorem reconcile_of_nil (initialArtists : List Artist) (s : HomeState)
    (h : filteredArtists initialArtists s = []) :
    reconcile initialArtists s =
      { s with selectedArtistId := "", selectedAvailability := "" } := by
  rw [reconcile, h]

/-- Reconciliation when the selected id is still visible changes nothing. -/
theorem reconcile_of_visible (initialArtists : List Artist) (s : HomeState)
    (first : Artist) (rest : List Artist)
    (h : filteredArtists initialArtists s = first :: rest)
    (hvis : (first :: rest).any (fun artist => artist.id == s.selectedArtistId) = true) :
    reconcile initialArtists s = s := by
  rw [reconcile, h]
  simp only [hvis, if_true]

/-- Reconciliation when the selected id is not visible moves the selection to
the first filtered artist and clears the slot. -/
theorem reconcile_of_not_visible (initialArtists : List Artist) (s : HomeState)
    (first : Artist) (rest : List Artist)
    (h : filteredArtists initialArtists s = first :: rest)
    (hvis : (first :: rest).any (fun artist => artist.id == s.selectedArtistId) = false) :
    reconcile initialArtists s =
      { s with selectedArtistId := first.id, selectedAvailability := "" } := by
  rw [reconcile, h]
  simp only [hvis, Bool.false_eq_true, if_false]

/-- C1: the filter engine returns exactly the order-preserving subset of the
full roster whose members satisfy all three predicates — genre is "All" or a
member of the artist's genres, location is "All" or equal to the artist's
location, and rate at most the budget ceiling (inclusive). -/
theorem filteredArtists_exact (initialArtists : List Artist) (s : HomeState) :
    (filteredArtists initialArtists s).Sublist initialArtists ∧
    (filteredArtists initialArtists s =
      initialArtists.filter (fun artist =>
        decide ((s.genreFilter = "All" ∨ s.genreFilter ∈ artist.genres) ∧
          (s.locationFilter = "All" ∨ artist.location = s.locationFilter) ∧
          artist.rate ≤ s.budget))) ∧
    ∀ artist, artist ∈ filteredArtists initialArtists s ↔
      artist ∈ initialArtists ∧
      (s.genreFilter = "All" ∨ s.genreFilter ∈ artist.genres) ∧
      (s.locationFilter = "All" ∨ artist.location = s.locationFilter) ∧
      artist.rate ≤ s.budget := by
  refine ⟨List.filter_sublist _, ?_, fun artist => mem_filteredArtists _ _ _⟩
  rw [filteredArtists]
  apply List.filter_congr
  intro artist _
  rw [Bool.eq_iff_iff, artistMatches_iff, decide_eq_true_iff]

/-- C2: after every filter recomputation, reconciliation clears both the
selected id and the slot when the filtered list is empty; moves the
selection to the first filtered artist and clears the slot when the selected
id is no longer visible; and otherwise changes nothing. -/
theorem reconcile_case_split (initialArtists : List Artist) (s : HomeState) :
    (filteredArtists initialArtists s = [] →
      (reconcile initialArtists s).selectedArtistId = "" ∧
      (reconcile initialArtists s).selectedAvailability = "") ∧
    (∀ first rest, filteredArtists initialArtists s = first :: rest →
      ((∃ artist ∈ filteredArtists initialArtists s,
          artist.id = s.selectedArtistId) →
        reconcile initialArtists s = s) ∧
      ((¬ ∃ artist ∈ filteredArtists initialArtists s,
          artist.id = s.selectedArtistId) →
        (reconcile initialArtists s).selectedArtistId = first.id ∧
        (reconcile initialArtists s).selectedAvailability = "")) := by
  refine ⟨fun h => ?_, fun first rest h => ⟨fun hvis => ?_, fun hnvis => ?_⟩⟩
  · rw [reconcile_of_nil _ _ h]
    exact ⟨rfl, rfl⟩
  · apply reconcile_of_visible _ _ first rest h
    rw [List.any_eq_true]
    obtain ⟨a, ha, hid⟩ := hvis
    rw [h] at ha
    exact ⟨a, ha, by rw [beq_iff_eq]; exact hid⟩
  · rw [reconcile_of_not_visible _ _ first rest h ?_]
    · exact ⟨rfl, rfl⟩
    · rw [List.any_eq_false]
      intro a ha
      rw [beq_iff_eq]
      intro hid
      exact hnvis ⟨a, by rw [h]; exact ha, hid⟩

/-- Witness for `reconcile_case_split`: the empty roster filters to the empty
list, so reconciliation clears the selection. -/
theorem reconcile_case_split_witness :
    filteredArtists [] (initState []) = [] ∧
    (reconcile [] (initState [])).selectedArtistId = "" ∧
    (reconcile [] (initState [])).selectedAvailability = "" :=
  ⟨rfl, (reconcile_case_split [] (initState [])).1 rfl⟩

/-- Reconciliation establishes selection consistency, whatever the state. -/
theorem reconcile_selectionConsistent (initialArtists : List Artist)
    (s : HomeState) :
    selectionConsistent initialArtists (reconcile initialArtists s) := by
  rcases h : filteredArtists initialArtists s with _ | ⟨first, rest⟩
  · rw [reconcile_of_nil _ _ h]
    intro hid
    exact absurd rfl hid
  · rcases hvis : (first :: rest).any
        (fun artist => artist.id == s.selectedArtistId) with _ | _
    · rw [reconcile_of_not_visible _ _ first rest h hvis]
      intro _
      refine ⟨first, ?_, rfl⟩
      have hsame : filteredArtists initialArtists
          { s with selectedArtistId := first.id, selectedAvailability := "" } =
          filteredArtists initialArtists s := rfl
      rw [hsame, h]
      exact List.mem_cons_self _ _
    · rw [reconcile_of_visible _ _ first rest h hvis]
      intro _
      rw [List.any_eq_true] at hvis
      obtain ⟨a, ha, hid⟩ := hvis
      rw [beq_iff_eq] at hid
      exact ⟨a, by rw [h]; exact ha, hid⟩

/-- Every run — mount reconciliation followed by any sequence of events each
followed by reconciliation — ends selection-consistent. -/
theorem run_selectionConsistent (initialArtists : List Artist)
    (events : List Event) :
    selectionConsistent initialArtists (run initialArtists events) := by
  induction events using List.reverseRecOn with
  | nil => exact reconcile_selectionConsistent _ _
  | append_singleton l ev _ =>
    rw [run, List.foldl_append]
    exact reconcile_selectionConsistent _ _

/-- C3: in every state reachable from the mounted state by user events
followed by reconciliation, a non-empty selected artist id is the id of an
artist in the current filtered list, and the filtered list is an
order-preserving subset of the full roster. -/
theorem run_selected_visible (initialArtists : List Artist)
    (events : List Event)
    (h : (run initialArtists events).selectedArtistId ≠ "") :
    (∃ artist ∈ filteredArtists initialArtists (run initialArtists events),
      artist.id = (run initialArtists events).selectedArtistId) ∧
    (filteredArtists initialArtists (run initialArtists events)).Sublist
      initialArtists :=
  ⟨run_selectionConsistent initialArtists events h, List.filter_sublist _⟩

/-- Witness for `run_selected_visible`: on the sample roster, the mounted
state selects the first artist, which is visible. -/
theorem run_selected_visible_witness :
    (run [artistNova, artistVolt] []).selectedArtistId ≠ "" ∧
    ((∃ artist ∈ filteredArtists [artistNova, artistVolt]
        (run [artistNova, artistVolt] []),
      artist.id = (run [artistNova, artistVolt] []).selectedArtistId) ∧
     (filteredArtists [artistNova, artistVolt]
        (run [artistNova, artistVolt] [])).Sublist [artistNova, artistVolt]) :=
  ⟨by decide, run_selected_visible [artistNova, artistVolt] [] (by decide)⟩

/-- The guard branch of `handleSubmit` when no artist is selected. -/
theorem handleSubmit_of_none (initialArtists : List Artist) (s : HomeState)
    (h : selectedArtist initialArtists s = none) :
    handleSubmit initialArtists s =
      { s with successMessage := some selectPromptMessage } := by
  rw [handleSubmit, h]

/-- The guard branch of `handleSubmit` when no slot is chosen. -/
theorem handleSubmit_of_no_slot (initialArtists : List Artist) (s : HomeState)
    (artist : Artist)
    (hsel : selectedArtist initialArtists s = some artist)
    (h : s.selectedAvailability = "") :
    handleSubmit initialArtists s =
      { s with successMessage := some selectPromptMessage } := by
  simp only [handleSubmit, hsel]
  rw [if_pos h]

/-- The guard branch of `handleSubmit` when the contact fields are blank. -/
theorem handleSubmit_of_blank_contact (initialArtists : List Artist)
    (s : HomeState) (artist : Artist)
    (hsel : selectedArtist initialArtists s = some artist)
    (hslot : s.selectedAvailability ≠ "")
    (h : s.formState.plannerName = "" ∨ s.formState.plannerEmail = "") :
    handleSubmit initialArtists s =
      { s with successMessage := some contactPromptMessage } := by
  simp only [handleSubmit, hsel]
  rw [if_neg hslot, if_pos h]

/-- The success branch of `handleSubmit`. -/
theorem handleSubmit_of_valid (initialArtists : List Artist) (s : HomeState)
    (artist : Artist)
    (hsel : selectedArtist initialArtists s = some artist)
    (hslot : s.selectedAvailability ≠ "")
    (hname : s.formState.plannerName ≠ "")
    (hemail : s.formState.plannerEmail ≠ "") :
    handleSubmit initialArtists s =
      { s with
          successMessage :=
            some (confirmationMessage artist.name s.selectedAvailability)
          formState := { plannerName := "", plannerEmail := "", eventDetails := "" }
          selectedAvailability := "" } := by
  simp only [handleSubmit, hsel]
  rw [if_neg hslot, if_neg (not_or.mpr ⟨hname, hemail⟩)]

/-- The confirmation message never coincides with the blank-contact prompt:
their lengths differ. -/
theorem confirmationMessage_ne_contactPrompt (artistName slot : String) :
    confirmationMessage artistName slot ≠ contactPromptMessage := by
  intro h
  have hlen := congrArg String.length h
  rw [confirmationMessage, contactPromptMessage] at hlen
  simp only [String.length_append] at hlen
  have h1 : ("Booking inquiry sent for " : String).length = 25 := rfl
  have h2 : (" on " : String).length = 4 := rfl
  have h3 : (". Expect a response within 24 hours." : String).length = 36 := rfl
  have h4 :
      ("Please include your name and email so we can follow up." : String).length
        = 55 := rfl
  omega

/-- C4: submitting with an artist selected, a slot chosen and both contact
fields non-empty yields a status message containing the artist's name and
the chosen slot, resets the three form fields to "", clears the slot, and
leaves the selected artist id unchanged. -/
theorem handleSubmit_success (initialArtists : List Artist) (s : HomeState)
    (artist : Artist)
    (hsel : selectedArtist initialArtists s = some artist)
    (hslot : s.selectedAvailability ≠ "")
    (hname : s.formState.plannerName ≠ "")
    (hemail : s.formState.plannerEmail ≠ "") :
    (∃ pre mid post, (handleSubmit initialArtists s).successMessage =
      some (pre ++ artist.name ++ mid ++ s.selectedAvailability ++ post)) ∧
    (handleSubmit initialArtists s).formState.plannerName = "" ∧
    (handleSubmit initialArtists s).formState.plannerEmail = "" ∧
    (handleSubmit initialArtists s).formState.eventDetails = "" ∧
    (handleSubmit initialArtists s).selectedAvailability = "" ∧
    (handleSubmit initialArtists s).selectedArtistId = s.selectedArtistId := by
  rw [handleSubmit_of_valid initialArtists s artist hsel hslot hname hemail]
  exact ⟨⟨"Booking inquiry sent for ", " on ",
    ". Expect a response within 24 hours.", rfl⟩, rfl, rfl, rfl, rfl, rfl⟩

/-- Witness for `handleSubmit_success` on the sample roster with the form
filled in. -/
theorem handleSubmit_success_witness :
    selectedArtist [artistNova, artistVolt] readySubmitState = some artistNova ∧
    readySubmitState.selectedAvailability ≠ "" ∧
    readySubmitState.formState.plannerName ≠ "" ∧
    readySubmitState.formState.plannerEmail ≠ "" ∧
    ((∃ pre mid post,
      (handleSubmit [artistNova, artistVolt] readySubmitState).successMessage =
        some (pre ++ artistNova.name ++ mid ++
          readySubmitState.selectedAvailability ++ post)) ∧
     (handleSubmit [artistNova, artistVolt] readySubmitState).formState.plannerName = "" ∧
     (handleSubmit [artistNova, artistVolt] readySubmitState).formState.plannerEmail = "" ∧
     (handleSubmit [artistNova, artistVolt] readySubmitState).formState.eventDetails = "" ∧
     (handleSubmit [artistNova, artistVolt] readySubmitState).selectedAvailability = "" ∧
     (handleSubmit [artistNova, artistVolt] readySubmitState).selectedArtistId =
       readySubmitState.selectedArtistId) :=
  ⟨by decide, by decide, by decide, by decide,
    handleSubmit_success [artistNova, artistVolt] readySubmitState artistNova
      (by decide) (by decide) (by decide) (by decide)⟩

/-- C5: submitting with no artist selected or no slot chosen sets the
select-an-artist prompt and changes nothing else. -/
theorem handleSubmit_missing_selection (initialArtists : List Artist)
    (s : HomeState)
    (h : selectedArtist initialArtists s = none ∨ s.selectedAvailability = "") :
    (handleSubmit initialArtists s).successMessage = some selectPromptMessage ∧
    (handleSubmit initialArtists s).formState = s.formState ∧
    (handleSubmit initialArtists s).selectedArtistId = s.selectedArtistId ∧
    (handleSubmit initialArtists s).selectedAvailability =
      s.selectedAvailability := by
  rcases h with h | h
  · rw [handleSubmit_of_none _ _ h]
    exact ⟨rfl, rfl, rfl, rfl⟩
  · rcases hsel : selectedArtist initialArtists s with _ | artist
    · rw [handleSubmit_of_none _ _ hsel]
      exact ⟨rfl, rfl, rfl, rfl⟩
    · rw [handleSubmit_of_no_slot _ _ artist hsel h]
      exact ⟨rfl, rfl, rfl, rfl⟩

/-- Witness for `handleSubmit_missing_selection`: the freshly mounted sample
state has no chosen slot. -/
theorem handleSubmit_missing_selection_witness :
    (initState [artistNova, artistVolt]).selectedAvailability = "" ∧
    ((handleSubmit [artistNova, artistVolt]
        (initState [artistNova, artistVolt])).successMessage =
      some selectPromptMessage ∧
     (handleSubmit [artistNova, artistVolt]
        (initState [artistNova, artistVolt])).formState =
      (initState [artistNova, artistVolt]).formState ∧
     (handleSubmit [artistNova, artistVolt]
        (initState [artistNova, artistVolt])).selectedArtistId =
      (initState [artistNova, artistVolt]).selectedArtistId ∧
     (handleSubmit [artistNova, artistVolt]
        (initState [artistNova, artistVolt])).selectedAvailability =
      (initState [artistNova, artistVolt]).selectedAvailability) :=
  ⟨rfl, handleSubmit_missing_selection [artistNova, artistVolt]
    (initState [artistNova, artistVolt]) (Or.inr rfl)⟩

/-- C6: submitting with an artist and slot selected but a blank planner name
or email sets the contact prompt — which is never the confirmation message —
and leaves the form fields, the slot and the selection unchanged. -/
theorem handleSubmit_blank_contact_prompt (initialArtists : List Artist)
    (s : HomeState) (artist : Artist)
    (hsel : selectedArtist initialArtists s = some artist)
    (hslot : s.selectedAvailability ≠ "")
    (h : s.formState.plannerName = "" ∨ s.formState.plannerEmail = "") :
    (handleSubmit initialArtists s).successMessage =
      some contactPromptMessage ∧
    (handleSubmit initialArtists s).successMessage ≠
      some (confirmationMessage artist.name s.selectedAvailability) ∧
    (handleSubmit initialArtists s).formState = s.formState ∧
    (handleSubmit initialArtists s).selectedAvailability =
      s.selectedAvailability ∧
    (handleSubmit initialArtists s).selectedArtistId = s.selectedArtistId := by
  rw [handleSubmit_of_blank_contact _ _ artist hsel hslot h]
  refine ⟨rfl, ?_, rfl, rfl, rfl⟩
  intro hmsg
  exact confirmationMessage_ne_contactPrompt artist.name s.selectedAvailability
    (Option.some_injective _ hmsg.symm)

/-- Witness for `handleSubmit_blank_contact_prompt`: the sample state with a
slot chosen but empty contact fields. -/
theorem handleSubmit_blank_contact_prompt_witness :
    selectedArtist [artistNova, artistVolt] slotChosenState = some artistNova ∧
    slotChosenState.selectedAvailability ≠ "" ∧
    slotChosenState.formState.plannerName = "" ∧
    ((handleSubmit [artistNova, artistVolt] slotChosenState).successMessage =
      some contactPromptMessage ∧
     (handleSubmit [artistNova, artistVolt] slotChosenState).successMessage ≠
      some (confirmationMessage artistNova.name
        slotChosenState.selectedAvailability) ∧
     (handleSubmit [artistNova, artistVolt] slotChosenState).formState =
      slotChosenState.formState ∧
     (handleSubmit [artistNova, artistVolt] slotChosenState).selectedAvailability =
      slotChosenState.selectedAvailability ∧
     (handleSubmit [artistNova, artistVolt] slotChosenState).selectedArtistId =
      slotChosenState.selectedArtistId) :=
  ⟨by decide, by decide, by decide,
    handleSubmit_blank_contact_prompt [artistNova, artistVolt] slotChosenState
      artistNova (by decide) (by decide) (Or.inl (by decide))⟩

/-- C7 counterexample: with an artist selected, a slot chosen and both
contact fields filled, submission succeeds even though the event details are
blank — no non-empty check is applied to the details field. -/
theorem handleSubmit_blank_details_accepted :
    readySubmitState.formState.eventDetails = "" ∧
    (handleSubmit [artistNova, artistVolt] readySubmitState).successMessage =
      some (confirmationMessage "Nova Quartet" "June 14") ∧
    (handleSubmit [artistNova, artistVolt] readySubmitState).formState =
      { plannerName := "", plannerEmail := "", eventDetails := "" } ∧
    (handleSubmit [artistNova, artistVolt]
      readySubmitState).selectedAvailability = "" := by
  decide

/-- C7 amended: only the planner name and planner email are subject to a
non-empty check on submission; the event details field is not validated, and
submitting with blank event details (all other preconditions met) succeeds
with the confirmation message. -/
theorem handleSubmit_details_not_checked (initialArtists : List Artist)
    (s : HomeState) (artist : Artist)
    (hsel : selectedArtist initialArtists s = some artist)
    (hslot : s.selectedAvailability ≠ "")
    (hname : s.formState.plannerName ≠ "")
    (hemail : s.formState.plannerEmail ≠ "")
    (hdetails : s.formState.eventDetails = "") :
    (handleSubmit initialArtists s).successMessage =
      some (confirmationMessage artist.name s.selectedAvailability) := by
  rw [handleSubmit_of_valid initialArtists s artist hsel hslot hname hemail]

/-- Witness for `handleSubmit_details_not_checked` on the sample roster. -/
theorem handleSubmit_details_not_checked_witness :
    readySubmitState.formState.eventDetails = "" ∧
    (handleSubmit [artistNova, artistVolt] readySubmitState).successMessage =
      some (confirmationMessage artistNova.name
        readySubmitState.selectedAvailability) :=
  ⟨rfl, handleSubmit_details_not_checked [artistNova, artistVolt]
    readySubmitState artistNova (by decide) (by decide) (by decide) (by decide)
    rfl⟩

/-- C8 counterexample: starting from the state where "June 14" is already the
chosen slot, clicking that slot twice re-selects it instead of returning to
no-selection — the first click clears it and the second click chooses it
again. -/
theorem handleAvailabilityClick_twice_reselects :
    slotChosenState.selectedAvailability = "June 14" ∧
    (handleAvailabilityClick "June 14"
      (handleAvailabilityClick "June 14" slotChosenState)).selectedAvailability =
      "June 14" ∧
    ("June 14" : String) ≠ "" := by
  decide

/-- C8 amended: clicking a slot twice in succession returns the chosen-slot
state to no-selection whenever that slot was not already the chosen one at
the start; a single click on the currently chosen slot also clears it. From
a state where the slot is already chosen, two clicks re-select it instead. -/
theorem handleAvailabilityClick_toggle (slot : String) (s t : HomeState)
    (hs : s.selectedAvailability ≠ slot)
    (ht : t.selectedAvailability = slot) :
    (handleAvailabilityClick slot
      (handleAvailabilityClick slot s)).selectedAvailability = "" ∧
    (handleAvailabilityClick slot t).selectedAvailability = "" := by
  constructor
  · by_cases hempty : slot = ""
    · subst hempty
      simp [handleAvailabilityClick]
    · have h1 : (handleAvailabilityClick slot s).selectedAvailability = slot := by
        rw [handleAvailabilityClick]
        simp only [if_neg hs]
      rw [handleAvailabilityClick]
      simp [h1]
  · rw [handleAvailabilityClick]
    simp [ht]

/-- Witness for `handleAvailabilityClick_toggle`: toggling "June 14" twice
from the mounted state (no slot chosen), and clicking it once from the state
where it is chosen, both clear the slot. -/
theorem handleAvailabilityClick_toggle_witness :
    (initState [artistNova, artistVolt]).selectedAvailability ≠ "June 14" ∧
    slotChosenState.selectedAvailability = "June 14" ∧
    ((handleAvailabilityClick "June 14" (handleAvailabilityClick "June 14"
        (initState [artistNova, artistVolt]))).selectedAvailability = "" ∧
     (handleAvailabilityClick "June 14" slotChosenState).selectedAvailability =
      "") :=
  ⟨by decide, by decide,
    handleAvailabilityClick_toggle "June 14" (initState [artistNova, artistVolt])
      slotChosenState (by decide) (by decide)⟩

/-- C9: an availability-slot button on an artist card first runs
`handleBookClick`, which clears the chosen slot, so the subsequent toggle
always lands on the clicked slot — it never toggles the slot off, whatever
slot was chosen before, and it selects the card's artist. -/
theorem cardSlotClick_always_selects (artistId slot : String) (s : HomeState) :
    (cardSlotClick artistId slot s).selectedAvailability = slot ∧
    (cardSlotClick artistId slot s).selectedArtistId = artistId := by
  constructor
  · rw [cardSlotClick, handleAvailabilityClick]
    by_cases hempty : ("" : String) = slot
    · simp only [handleBookClick, if_pos hempty]
      exact hempty
    · simp only [handleBookClick, if_neg hempty]
  · rfl

/-- The fold computing `maxRate` dominates its initial value. -/
theorem init_le_foldl_max :
    ∀ (l : List Artist) (init : Int),
      init ≤ l.foldl (fun currentMax artist => max currentMax artist.rate) init := by
  intro l
  induction l with
  | nil => intro init; exact le_refl _
  | cons b l ih =>
    intro init
    rw [List.foldl_cons]
    exact le_trans (le_max_left _ _) (ih (max init b.rate))

/-- Each member's rate is dominated by the fold computing `maxRate`. -/
theorem rate_le_foldl_max (a : Artist) :
    ∀ (l : List Artist), a ∈ l → ∀ init : Int,
      a.rate ≤ l.foldl (fun currentMax artist => max currentMax artist.rate) init := by
  intro l
  induction l with
  | nil => intro ha; cases ha
  | cons b l ih =>
    intro ha init
    rw [List.foldl_cons]
    rcases List.mem_cons.mp ha with h | h
    · subst h
      exact le_trans (le_max_right _ _) (init_le_foldl_max l (max init a.rate))
    · exact ih h (max init b.rate)

/-- The fold computing `maxRate` returns its initial value or some member's
rate. -/
theorem foldl_max_eq_init_or_rate :
    ∀ (l : List Artist) (init : Int),
      l.foldl (fun currentMax artist => max currentMax artist.rate) init = init ∨
      ∃ a ∈ l,
        l.foldl (fun currentMax artist => max currentMax artist.rate) init =
          a.rate := by
  intro l
  induction l with
  | nil => intro init; exact Or.inl rfl
  | cons b l ih =>
    intro init
    rcases ih (max init b.rate) with h | ⟨a, ha, h⟩
    · rcases max_choice init b.rate with h2 | h2
      · exact Or.inl (by rw [List.foldl_cons, h, h2])
      · exact Or.inr ⟨b, List.mem_cons_self _ _, by rw [List.foldl_cons, h, h2]⟩
    · exact Or.inr ⟨a, List.mem_cons_of_mem _ ha, by rw [List.foldl_cons, h]⟩

/-- The fold computing `minRate` is dominated by its initial value. -/
theorem foldl_min_le_init :
    ∀ (l : List Artist) (init : Int),
      l.foldl (fun currentMin artist => min currentMin artist.rate) init ≤ init := by
  intro l
  induction l with
  | nil => intro init; exact le_refl _
  | cons b l ih =>
    intro init
    rw [List.foldl_cons]
    exact le_trans (ih (min init b.rate)) (min_le_left _ _)

/-- `maxRate` dominates every rate of the roster. -/
theorem rate_le_maxRate (initialArtists : List Artist) (a : Artist)
    (ha : a ∈ initialArtists) : a.rate ≤ maxRate initialArtists := by
  rw [maxRate]
  exact rate_le_foldl_max a initialArtists ha _

/-- On a non-empty roster `minRate` is at most `maxRate`. -/
theorem minRate_le_maxRate (first : Artist) (rest : List Artist) :
    minRate (first :: rest) ≤ maxRate (first :: rest) := by
  rw [minRate, maxRate]
  exact le_trans (foldl_min_le_init _ _) (init_le_foldl_max _ _)

/-- On a non-empty roster `maxRate` is the rate of some member. -/
theorem maxRate_attained (first : Artist) (rest : List Artist) :
    ∃ a ∈ first :: rest, a.rate = maxRate (first :: rest) := by
  rw [maxRate]
  rcases foldl_max_eq_init_or_rate (first :: rest) _ with h | ⟨a, ha, h⟩
  · refine ⟨first, List.mem_cons_self _ _, ?_⟩
    rw [h]
    rfl
  · exact ⟨a, ha, h.symm⟩

/-- On a non-empty roster the initial budget equals `maxRate`. -/
theorem initState_budget_eq_maxRate (first : Artist) (rest : List Artist) :
    (initState (first :: rest)).budget = maxRate (first :: rest) :=
  max_eq_right (minRate_le_maxRate first rest)

/-- C10: the budget is initialised to the maximum rate of the roster (0 for
an empty roster), so under the initial "All"/"All" criteria the initial
filtered list is the whole roster and the initially selected artist — the
first of the roster when non-empty — is present in it. -/
theorem initState_shows_full_roster (initialArtists : List Artist) :
    (initialArtists = [] → (initState initialArtists).budget = 0) ∧
    (∀ artist ∈ initialArtists,
      artist.rate ≤ (initState initialArtists).budget) ∧
    (initialArtists ≠ [] →
      ∃ artist ∈ initialArtists,
        artist.rate = (initState initialArtists).budget) ∧
    filteredArtists initialArtists (initState initialArtists) =
      initialArtists ∧
    ∀ first rest, initialArtists = first :: rest →
      (initState initialArtists).selectedArtistId = first.id ∧
      first ∈ filteredArtists initialArtists (initState initialArtists) := by
  have hub : ∀ artist ∈ initialArtists,
      artist.rate ≤ (initState initialArtists).budget := by
    intro a ha
    show a.rate ≤ max (resolvedMinRate initialArtists) (maxRate initialArtists)
    exact le_trans (rate_le_maxRate initialArtists a ha) (le_max_right _ _)
  have hfull : filteredArtists initialArtists (initState initialArtists) =
      initialArtists := by
    rw [filteredArtists]
    apply List.filter_eq_self.mpr
    intro a ha
    rw [artistMatches_iff]
    exact ⟨Or.inl rfl, Or.inl rfl, hub a ha⟩
  refine ⟨fun h => by subst h; decide, hub, fun hne => ?_, hfull,
    fun first rest hcons => ?_⟩
  · obtain ⟨first, rest, rfl⟩ := List.exists_cons_of_ne_nil hne
    obtain ⟨a, ha, hrate⟩ := maxRate_attained first rest
    exact ⟨a, ha, by rw [hrate, initState_budget_eq_maxRate]⟩
  · subst hcons
    exact ⟨rfl, by rw [hfull]; exact List.mem_cons_self _ _⟩

/-- Witness for `initState_shows_full_roster`: on the non-empty sample
roster, the budget matches Volt's top rate and the first artist is selected
and visible. -/
theorem initState_shows_full_roster_witness :
    ([artistNova, artistVolt] : List Artist) ≠ [] ∧
    [artistNova, artistVolt] = artistNova :: [artistVolt] ∧
    ((∃ artist ∈ [artistNova, artistVolt],
        artist.rate = (initState [artistNova, artistVolt]).budget) ∧
     (initState [artistNova, artistVolt]).selectedArtistId = artistNova.id ∧
     artistNova ∈ filteredArtists [artistNova, artistVolt]
       (initState [artistNova, artistVolt])) :=
  ⟨by decide, rfl,
    (initState_shows_full_roster [artistNova, artistVolt]).2.2.1 (by decide),
    (initState_shows_full_roster [artistNova, artistVolt]).2.2.2.2
      artistNova [artistVolt] rfl⟩
